import Mathlib

/-!
Shallow embedding of `allennlp/training/trainer_base.py` (class `TrainerBase`)
and proofs about its constructor, `_move_to_gpu`, `train` and `from_params`.

External collaborators that are not part of the excerpt are abstracted:
`check_for_gpu` is an environment availability check (it recurses into list
arguments and succeeds whenever the requested devices exist, in particular on
`-1` and on the empty list), modelled as succeeding; the `Trainer`/
`TrainerPieces` construction and the registry lookup `by_name` are modelled as
opaque result constructors recording exactly the arguments the source passes
to them.
-/

namespace TrainerBaseSpec

/-- Python value passed as `cuda_device`: an `int`, a `list`, or any other
value (represented by its string form, used in the error message). -/
inductive CudaDevice where
  | int (n : Int)
  | list (devices : List Int)
  | other (text : String)
deriving Repr, DecidableEq

/-- Python exceptions raised by the code in `trainer_base.py`. -/
inductive PyError where
  | configurationError (msg : String)
  | assertionError (msg : String)
  | indexError
  | notImplementedError
deriving Repr, DecidableEq

/-- The `allocation_dict` argument: `None` or a Python dict from strings to
ints, embedded as an association list. -/
abbrev AllocDict := List (String × Int)

/-- The attributes a successfully constructed `TrainerBase` object holds. -/
structure TrainerBaseState where
  serialization_dir : String
  multiple_gpu : Bool
  cuda_devices : List Int
  allocation_dict : Option AllocDict
deriving Repr, DecidableEq

/-- Embedding of `TrainerBase.__init__`. The body mirrors the source:
first the type check on `cuda_device` (raising `ConfigurationError` when it
is neither an int nor a list), then the list branch (data-parallel mode when
`allocation_dict` is `None` or empty, otherwise devices plus allocation
dict), then the int branch (asserting `allocation_dict` is `None` or empty).
The preceding `check_for_gpu(cuda_device)` call is an environment
availability check external to the excerpt, modelled as succeeding. -/
def TrainerBase.init (serialization_dir : String) (cuda_device : CudaDevice)
    (allocation_dict : Option AllocDict) : Except PyError TrainerBaseState :=
  match cuda_device with
  | CudaDevice.other text =>
      Except.error (PyError.configurationError
        ("Expected an int or list for cuda_device, got " ++ text))
  | CudaDevice.list devices =>
      match allocation_dict with
      | none => Except.ok ⟨serialization_dir, true, devices, none⟩
      | some d =>
          if d.length = 0 then
            Except.ok ⟨serialization_dir, true, devices, none⟩
          else
            Except.ok ⟨serialization_dir, false, devices, some d⟩
  | CudaDevice.int n =>
      match allocation_dict with
      | none => Except.ok ⟨serialization_dir, false, [n], none⟩
      | some d =>
          if d.length = 0 then
            Except.ok ⟨serialization_dir, false, [n], none⟩
          else
            Except.error (PyError.assertionError
              "Should not specify GPU Allocation if only one GPU!")

/-- A model object: either an original model or the result of
`model.cuda(device)`, recorded as a free constructor. -/
inductive Model where
  | obj (name : String)
  | cuda (m : Model) (device : Int)
deriving Repr, DecidableEq

/-- Embedding of `TrainerBase._move_to_gpu`: reads `self._cuda_devices[0]`
(an `IndexError` when the list is empty) and either returns the model
unchanged (device `-1`) or `model.cuda(device)`. -/
def TrainerBaseState.move_to_gpu (self : TrainerBaseState) (model : Model) :
    Except PyError Model :=
  match self.cuda_devices with
  | [] => Except.error PyError.indexError
  | d :: _ => if d ≠ -1 then Except.ok (Model.cuda model d) else Except.ok model

/-- Embedding of `TrainerBase.train`: the base class unconditionally raises
`NotImplementedError`. The would-be result is the `Dict[str, Any]` of
training metrics, embedded as an association list. -/
def TrainerBaseState.train (_self : TrainerBaseState) :
    Except PyError (List (String × String)) :=
  Except.error PyError.notImplementedError

/-- A sub-configuration of a `Params` object (e.g. the value under
`"trainer"`), embedded as an association list of string keys and values. -/
abbrev SubConfig := List (String × String)

/-- A `Params` configuration object: top-level keys mapping to
sub-configurations. -/
abbrev ParamsT := List (String × SubConfig)

/-- Lookup of a key in an association list (Python dict access), returning
the first binding. -/
def lookupKey (k : String) : List (String × α) → Option α
  | [] => none
  | p :: rest => if p.1 = k then some p.2 else lookupKey k rest

/-- Removal of a key from an association list (Python `dict.pop`). -/
def removeKey (k : String) : List (String × α) → List (String × α)
  | [] => []
  | p :: rest => if p.1 = k then removeKey k rest else p :: removeKey k rest

/-- In-place update of the value bound to a key (mutation of a nested dict
through a shared reference, as `Params.get` returns a view over the same
underlying dict). -/
def updateKey (k : String) (f : α → α) : List (String × α) → List (String × α)
  | [] => []
  | p :: rest =>
      if p.1 = k then (p.1, f p.2) :: updateKey k f rest
      else p :: updateKey k f rest

/-- Embedding of `params.get("trainer", {}).pop("type", "default")`.
Modelled from the spec: the `Params` class (`allennlp.common.params`) is not
in the excerpt; per the spec's "framework-specific parameter/config system",
`get` returns a view sharing the underlying dict, so `pop` removes the
`"type"` key from `params` itself when it is present, and the default
`"default"` is returned (with `params` unchanged) when `"trainer"` or
`"type"` is absent. Returns the popped type together with the resulting
state of `params`. -/
def popTrainerType (params : ParamsT) : String × ParamsT :=
  match lookupKey "trainer" params with
  | none => ("default", params)
  | some sub =>
      match lookupKey "type" sub with
      | none => ("default", params)
      | some t => (t, updateKey "trainer" (removeKey "type") params)

/-- Outcome of `TrainerBase.from_params`: either the special default path
through `TrainerPieces.from_params`/`Trainer.from_params` (recording the
params, serialization dir and recover flag it consumes) or the dispatch
`TrainerBase.by_name(type).from_params(params, serialization_dir, recover)`
(recording the looked-up name and the arguments passed on). -/
inductive TrainerResult where
  | defaultPath (params : ParamsT) (serialization_dir : String) (recover : Bool)
  | dispatched (typeName : String) (params : ParamsT)
      (serialization_dir : String) (recover : Bool)
deriving Repr, DecidableEq

/-- Embedding of `TrainerBase.from_params`: pops the trainer type, takes the
default path when it is `"default"`, otherwise dispatches by name. Returns
the outcome together with the final state of the (mutated) `params`. -/
def TrainerBase.from_params (params : ParamsT) (serialization_dir : String)
    (recover : Bool) : TrainerResult × ParamsT :=
  let tp := popTrainerType params
  if tp.1 = "default" then
    (TrainerResult.defaultPath tp.2 serialization_dir recover, tp.2)
  else
    (TrainerResult.dispatched tp.1 tp.2 serialization_dir recover, tp.2)

/-! Helper lemmas about association-list operations. -/

/-- Looking up the key just removed yields nothing. -/
theorem lookupKey_removeKey_self (k : String) (l : List (String × α)) :
    lookupKey k (removeKey k l) = none := by
  induction l with
  | nil => rfl
  | cons p rest ih =>
      by_cases h : p.1 = k
      · simp [removeKey, h, ih]
      · simp [removeKey, lookupKey, h, ih]

/-- Removing one key leaves lookups of other keys unchanged. -/
theorem lookupKey_removeKey_ne (k k' : String) (l : List (String × α))
    (h : k' ≠ k) : lookupKey k' (removeKey k l) = lookupKey k' l := by
  induction l with
  | nil => rfl
  | cons p rest ih =>
      by_cases hp : p.1 = k
      · simp [removeKey, lookupKey, hp, h, Ne.symm h, ih]
      · by_cases hp' : p.1 = k'
        · simp [removeKey, lookupKey, hp, hp', h, Ne.symm h]
        · simp [removeKey, lookupKey, hp, hp', ih]

/-- Looking up the updated key applies the update to the stored value. -/
theorem lookupKey_updateKey_self (k : String) (f : α → α)
    (l : List (String × α)) :
    lookupKey k (updateKey k f l) = (lookupKey k l).map f := by
  induction l with
  | nil => rfl
  | cons p rest ih =>
      by_cases h : p.1 = k
      · simp [updateKey, lookupKey, h]
      · simp [updateKey, lookupKey, h, ih]

/-- Updating one key leaves lookups of other keys unchanged. -/
theorem lookupKey_updateKey_ne (k k' : String) (f : α → α)
    (l : List (String × α)) (h : k' ≠ k) :
    lookupKey k' (updateKey k f l) = lookupKey k' l := by
  induction l with
  | nil => rfl
  | cons p rest ih =>
      by_cases hp : p.1 = k
      · simp [updateKey, lookupKey, hp, h, Ne.symm h, ih]
      · by_cases hp' : p.1 = k'
        · simp [updateKey, lookupKey, hp, hp', h, Ne.symm h]
        · simp [updateKey, lookupKey, hp, hp', ih]

/-- Unfolding `popTrainerType` when the trainer sub-configuration exists and
carries a `"type"` key. -/
theorem popTrainerType_eq_of_type (params : ParamsT) (sub : SubConfig)
    (t : String) (hsub : lookupKey "trainer" params = some sub)
    (ht : lookupKey "type" sub = some t) :
    popTrainerType params = (t, updateKey "trainer" (removeKey "type") params) := by
  simp [popTrainerType, hsub, ht]

/-- Unfolding `popTrainerType` when the trainer sub-configuration exists but
has no `"type"` key. -/
theorem popTrainerType_eq_of_no_type (params : ParamsT) (sub : SubConfig)
    (hsub : lookupKey "trainer" params = some sub)
    (ht : lookupKey "type" sub = none) :
    popTrainerType params = ("default", params) := by
  simp [popTrainerType, hsub, ht]

/-- Unfolding `popTrainerType` when there is no trainer sub-configuration. -/
theorem popTrainerType_eq_of_no_trainer (params : ParamsT)
    (hsub : lookupKey "trainer" params = none) :
    popTrainerType params = ("default", params) := by
  unfold popTrainerType
  rw [hsub]

/-! Claim theorems. -/

/-- C2: the constructor validates `cuda_device`: every value that is neither
an int nor a list makes `TrainerBase.__init__` raise `ConfigurationError`,
and for every int or list value that type check does not raise (no
`ConfigurationError` can come out of the constructor on those inputs). -/
theorem init_validates_cuda_device (ser : String) (alloc : Option AllocDict) :
    (∀ text, TrainerBase.init ser (CudaDevice.other text) alloc =
      Except.error (PyError.configurationError
        ("Expected an int or list for cuda_device, got " ++ text))) ∧
    (∀ n msg, TrainerBase.init ser (CudaDevice.int n) alloc ≠
      Except.error (PyError.configurationError msg)) ∧
    (∀ l msg, TrainerBase.init ser (CudaDevice.list l) alloc ≠
      Except.error (PyError.configurationError msg)) := by
  refine ⟨fun text => rfl, fun n msg h => ?_, fun l msg h => ?_⟩
  · cases alloc with
    | none => exact Except.noConfusion h
    | some d =>
        by_cases hd : d.length = 0
        · simp [TrainerBase.init, hd] at h
        · simp [TrainerBase.init, hd] at h
  · cases alloc with
    | none => exact Except.noConfusion h
    | some d =>
        by_cases hd : d.length = 0
        · simp [TrainerBase.init, hd] at h
        · simp [TrainerBase.init, hd] at h

/-- C2 witness: the type check fires on a concrete non-int non-list value
and does not fire on a concrete int. -/
theorem init_validates_cuda_device_witness :
    TrainerBase.init "s" (CudaDevice.other "None") none =
      Except.error (PyError.configurationError
        "Expected an int or list for cuda_device, got None") ∧
    TrainerBase.init "s" (CudaDevice.int 0) none ≠
      Except.error (PyError.configurationError "msg") := by
  refine ⟨?_, (init_validates_cuda_device "s" none).2.1 0 "msg"⟩
  have h := (init_validates_cuda_device "s" none).1 "None"
  simpa using h

/-- C4: the base class delegates the optimization loop: `train` on
`TrainerBase` itself always raises `NotImplementedError` and never returns a
result mapping. -/
theorem train_raises_not_implemented (st : TrainerBaseState) :
    TrainerBaseState.train st = Except.error PyError.notImplementedError ∧
    ∀ res, TrainerBaseState.train st ≠ Except.ok res := by
  exact ⟨rfl, fun res h => Except.noConfusion h⟩

/-- C4 witness: `train` at a concrete trainer state. -/
theorem train_raises_not_implemented_witness :
    TrainerBaseState.train ⟨"s", false, [-1], none⟩ =
      Except.error PyError.notImplementedError ∧
    TrainerBaseState.train ⟨"s", false, [-1], none⟩ ≠
      Except.ok [] := by
  exact ⟨(train_raises_not_implemented ⟨"s", false, [-1], none⟩).1,
    (train_raises_not_implemented ⟨"s", false, [-1], none⟩).2 []⟩

/-- C5: `_move_to_gpu` returns the model unchanged when the first configured
device is `-1` and otherwise returns `model.cuda(device)`; the result depends
on no trainer state other than `_cuda_devices`, and the operation modifies
nothing (it is a pure read in the source, embedded as a pure function). -/
theorem move_to_gpu_head (st : TrainerBaseState) (m : Model) (d : Int)
    (rest : List Int) (h : st.cuda_devices = d :: rest) :
    TrainerBaseState.move_to_gpu st m =
      (if d = -1 then Except.ok m else Except.ok (Model.cuda m d)) ∧
    (∀ st' : TrainerBaseState, st'.cuda_devices = st.cuda_devices →
      TrainerBaseState.move_to_gpu st' m = TrainerBaseState.move_to_gpu st m) := by
  constructor
  · by_cases hd : d = -1
    · simp [TrainerBaseState.move_to_gpu, h, hd]
    · simp [TrainerBaseState.move_to_gpu, h, hd]
  · intro st' hst
    simp [TrainerBaseState.move_to_gpu, h, hst ▸ h]

/-- C5 witness: `_move_to_gpu` at device `-1` leaves the model alone, and at
device `3` calls `model.cuda(3)`; two states sharing `_cuda_devices` agree. -/
theorem move_to_gpu_head_witness :
    TrainerBaseState.move_to_gpu ⟨"s", false, [-1], none⟩ (Model.obj "m") =
      Except.ok (Model.obj "m") ∧
    TrainerBaseState.move_to_gpu ⟨"s", false, [3], none⟩ (Model.obj "m") =
      Except.ok (Model.cuda (Model.obj "m") 3) ∧
    TrainerBaseState.move_to_gpu ⟨"t", true, [-1], some [("a", 0)]⟩ (Model.obj "m") =
      TrainerBaseState.move_to_gpu ⟨"s", false, [-1], none⟩ (Model.obj "m") := by
  refine ⟨?_, ?_, ?_⟩
  · have h := (move_to_gpu_head ⟨"s", false, [-1], none⟩ (Model.obj "m") (-1) [] rfl).1
    simpa using h
  · have h := (move_to_gpu_head ⟨"s", false, [3], none⟩ (Model.obj "m") 3 [] rfl).1
    simpa using h
  · exact (move_to_gpu_head ⟨"s", false, [-1], none⟩ (Model.obj "m") (-1) [] rfl).2
      ⟨"t", true, [-1], some [("a", 0)]⟩ rfl

/-- C6: with an int `cuda_device`, a non-empty `allocation_dict` makes the
constructor raise the assertion "Should not specify GPU Allocation if only
one GPU!", while `None` or an empty dict lets that branch succeed. -/
theorem init_int_allocation_assert (ser : String) (n : Int) :
    (∀ d : AllocDict, d ≠ [] →
      TrainerBase.init ser (CudaDevice.int n) (some d) =
        Except.error (PyError.assertionError
          "Should not specify GPU Allocation if only one GPU!")) ∧
    TrainerBase.init ser (CudaDevice.int n) none =
      Except.ok ⟨ser, false, [n], none⟩ ∧
    TrainerBase.init ser (CudaDevice.int n) (some []) =
      Except.ok ⟨ser, false, [n], none⟩ := by
  refine ⟨fun d hd => ?_, rfl, rfl⟩
  have hlen : ¬ d.length = 0 := by
    simpa using hd
  simp [TrainerBase.init, hlen]

/-- C6 witness: a concrete singleton allocation dict trips the assertion and
`None` succeeds. -/
theorem init_int_allocation_assert_witness :
    TrainerBase.init "s" (CudaDevice.int 0) (some [("gpu", 1)]) =
      Except.error (PyError.assertionError
        "Should not specify GPU Allocation if only one GPU!") ∧
    TrainerBase.init "s" (CudaDevice.int 0) none =
      Except.ok ⟨"s", false, [0], none⟩ := by
  exact ⟨(init_int_allocation_assert "s" 0).1 [("gpu", 1)] (by simp),
    (init_int_allocation_assert "s" 0).2.1⟩

/-- C7: invariant of every successfully constructed `TrainerBase`:
`_multiple_gpu` is true exactly when `cuda_device` was a list and
`allocation_dict` was `None` or empty; `_allocation_dict` is non-`None`
exactly when `cuda_device` was a list and `allocation_dict` non-empty (so
`_multiple_gpu` true implies `_allocation_dict` is `None`); an int
`cuda_device` always yields `_multiple_gpu` false and `_cuda_devices`
equal to the one-element list. -/
theorem init_state_invariant (ser : String) (cd : CudaDevice)
    (alloc : Option AllocDict) (st : TrainerBaseState)
    (h : TrainerBase.init ser cd alloc = Except.ok st) :
    (st.multiple_gpu = true ↔
      (∃ l, cd = CudaDevice.list l) ∧ (alloc = none ∨ alloc = some [])) ∧
    (st.allocation_dict ≠ none ↔
      (∃ l, cd = CudaDevice.list l) ∧ ¬ (alloc = none ∨ alloc = some [])) ∧
    (st.multiple_gpu = true → st.allocation_dict = none) ∧
    (∀ n, cd = CudaDevice.int n →
      st.multiple_gpu = false ∧ st.cuda_devices = [n]) := by
  cases cd with
  | other text => simp [TrainerBase.init] at h
  | int n =>
      cases alloc with
      | none =>
          simp [TrainerBase.init] at h
          subst h
          simp
      | some d =>
          by_cases hd : d.length = 0
          · have hdnil : d = [] := List.length_eq_zero.mp hd
            subst hdnil
            simp [TrainerBase.init] at h
            subst h
            simp
          · simp [TrainerBase.init, hd] at h
  | list devices =>
      cases alloc with
      | none =>
          simp [TrainerBase.init] at h
          subst h
          simp
      | some d =>
          by_cases hd : d.length = 0
          · have hdnil : d = [] := List.length_eq_zero.mp hd
            subst hdnil
            simp [TrainerBase.init] at h
            subst h
            simp
          · have hdnil : ¬ d = [] := by
              intro hn
              exact hd (by simp [hn])
            simp [TrainerBase.init, hd] at h
            subst h
            simp [hdnil]

/-- C7 witness: a two-GPU list with no allocation dict gives data-parallel
mode with no stored allocation dict, and a concrete int gives a singleton
device list. -/
theorem init_state_invariant_witness :
    (TrainerBaseState.multiple_gpu ⟨"s", true, [0, 1], none⟩ = true) ∧
    (TrainerBaseState.multiple_gpu ⟨"t", false, [0], none⟩ = false ∧
      TrainerBaseState.cuda_devices ⟨"t", false, [0], none⟩ = [0]) := by
  refine ⟨?_, ?_⟩
  · exact (init_state_invariant "s" (CudaDevice.list [0, 1]) none
      ⟨"s", true, [0, 1], none⟩ rfl).1.mpr ⟨⟨[0, 1], rfl⟩, Or.inl rfl⟩
  · exact (init_state_invariant "t" (CudaDevice.int 0) none
      ⟨"t", false, [0], none⟩ rfl).2.2.2 0 rfl

/-- C3 counterexample: the constructor accepts the empty device list (it is
a list, and `allocation_dict` is `None`), yet the resulting `_cuda_devices`
is empty and `_move_to_gpu` fails with `IndexError` on `_cuda_devices[0]`,
contrary to the claim that `_cuda_devices` is non-empty for every accepted
`cuda_device` "including the empty list". -/
theorem cuda_devices_empty_counterexample :
    TrainerBase.init "s" (CudaDevice.list []) none =
      Except.ok ⟨"s", true, [], none⟩ ∧
    TrainerBaseState.cuda_devices ⟨"s", true, [], none⟩ = [] ∧
    TrainerBaseState.move_to_gpu ⟨"s", true, [], none⟩ (Model.obj "m") =
      Except.error PyError.indexError := by
  exact ⟨rfl, rfl, rfl⟩

/-- C3 (amended): for every successfully constructed `TrainerBase` whose
`cuda_device` was an int or a non-empty list, `_cuda_devices` is non-empty
and the index access `_cuda_devices[0]` performed by `_move_to_gpu` never
fails; the empty-list `cuda_device` is the sole exception. -/
theorem cuda_devices_nonempty_amended (ser : String) (cd : CudaDevice)
    (alloc : Option AllocDict) (st : TrainerBaseState)
    (h : TrainerBase.init ser cd alloc = Except.ok st)
    (hcd : (∃ n, cd = CudaDevice.int n) ∨
      (∃ d ds, cd = CudaDevice.list (d :: ds))) :
    st.cuda_devices ≠ [] ∧
    ∀ m, TrainerBaseState.move_to_gpu st m ≠ Except.error PyError.indexError := by
  have hne : st.cuda_devices ≠ [] := by
    rcases hcd with ⟨n, rfl⟩ | ⟨d, ds, rfl⟩
    · cases alloc with
      | none =>
          simp [TrainerBase.init] at h
          subst h
          simp
      | some a =>
          by_cases ha : a.length = 0
          · simp [TrainerBase.init, ha] at h
            subst h
            simp
          · simp [TrainerBase.init, ha] at h
    · cases alloc with
      | none =>
          simp [TrainerBase.init] at h
          subst h
          simp
      | some a =>
          by_cases ha : a.length = 0
          · simp [TrainerBase.init, ha] at h
            subst h
            simp
          · simp [TrainerBase.init, ha] at h
            subst h
            simp
  refine ⟨hne, fun m hcontra => ?_⟩
  cases hl : st.cuda_devices with
  | nil => exact hne hl
  | cons d rest =>
      by_cases hd : d = -1
      · simp [TrainerBaseState.move_to_gpu, hl, hd] at hcontra
      · simp [TrainerBaseState.move_to_gpu, hl, hd] at hcontra

/-- C3 (amended) witness: a concrete singleton device list yields a
non-empty `_cuda_devices` and a working `_move_to_gpu`. -/
theorem cuda_devices_nonempty_amended_witness :
    TrainerBaseState.cuda_devices ⟨"s", true, [2], none⟩ ≠ [] ∧
    TrainerBaseState.move_to_gpu ⟨"s", true, [2], none⟩ (Model.obj "m") ≠
      Except.error PyError.indexError := by
  have h := cuda_devices_nonempty_amended "s" (CudaDevice.list [2]) none
    ⟨"s", true, [2], none⟩ rfl (Or.inr ⟨2, [], rfl⟩)
  exact ⟨h.1, h.2 (Model.obj "m")⟩

/-- C1: when the `"trainer"` sub-configuration carries a `"type"` key other
than `"default"`, `from_params` dispatches to
`by_name(type).from_params(params, serialization_dir, recover)` with the
popped params; when the `"type"` key (or the whole trainer entry) is absent
the type is treated as `"default"` and the special `TrainerPieces`/`Trainer`
path is taken instead. -/
theorem from_params_dispatch (params : ParamsT) (ser : String) (recover : Bool) :
    (∀ sub t, lookupKey "trainer" params = some sub →
      lookupKey "type" sub = some t → t ≠ "default" →
      TrainerBase.from_params params ser recover =
        (TrainerResult.dispatched t
          (updateKey "trainer" (removeKey "type") params) ser recover,
         updateKey "trainer" (removeKey "type") params)) ∧
    (∀ sub, lookupKey "trainer" params = some sub →
      lookupKey "type" sub = none →
      TrainerBase.from_params params ser recover =
        (TrainerResult.defaultPath params ser recover, params)) ∧
    (lookupKey "trainer" params = none →
      TrainerBase.from_params params ser recover =
        (TrainerResult.defaultPath params ser recover, params)) := by
  refine ⟨fun sub t hsub ht hne => ?_, fun sub hsub ht => ?_, fun hsub => ?_⟩
  · simp [TrainerBase.from_params,
      popTrainerType_eq_of_type params sub t hsub ht, hne]
  · simp [TrainerBase.from_params,
      popTrainerType_eq_of_no_type params sub hsub ht]
  · simp [TrainerBase.from_params,
      popTrainerType_eq_of_no_trainer params hsub]

/-- C1 witness: a concrete configuration with trainer type `"custom"` is
dispatched by name with the `"type"` key popped, and one with no `"type"`
key takes the default path. -/
theorem from_params_dispatch_witness :
    TrainerBase.from_params
      [("trainer", [("type", "custom"), ("lr", "0.1")])] "s" false =
      (TrainerResult.dispatched "custom"
        [("trainer", [("lr", "0.1")])] "s" false,
       [("trainer", [("lr", "0.1")])]) ∧
    TrainerBase.from_params [("trainer", [("lr", "0.1")])] "s" true =
      (TrainerResult.defaultPath [("trainer", [("lr", "0.1")])] "s" true,
       [("trainer", [("lr", "0.1")])]) := by
  constructor
  · have h := (from_params_dispatch
      [("trainer", [("type", "custom"), ("lr", "0.1")])] "s" false).1
      [("type", "custom"), ("lr", "0.1")] "custom" (by decide) (by decide)
      (by decide)
    exact h.trans (by decide)
  · exact (from_params_dispatch [("trainer", [("lr", "0.1")])] "s" true).2.1
      [("lr", "0.1")] (by decide) (by decide)

/-- C8: `from_params` mutates its `params` argument: when the trainer
sub-configuration contains a `"type"` key, that key is removed from the
configuration before dispatch, while every other key of the trainer
sub-configuration and every other top-level key of `params` is passed on
unchanged. -/
theorem from_params_pops_type (params : ParamsT) (ser : String) (recover : Bool)
    (sub : SubConfig) (t : String)
    (hsub : lookupKey "trainer" params = some sub)
    (ht : lookupKey "type" sub = some t) :
    lookupKey "trainer" (TrainerBase.from_params params ser recover).2 =
      some (removeKey "type" sub) ∧
    lookupKey "type" (removeKey "type" sub) = none ∧
    (∀ k, k ≠ "type" → lookupKey k (removeKey "type" sub) = lookupKey k sub) ∧
    (∀ k, k ≠ "trainer" →
      lookupKey k (TrainerBase.from_params params ser recover).2 =
        lookupKey k params) := by
  have h2 : (TrainerBase.from_params params ser recover).2 =
      updateKey "trainer" (removeKey "type") params := by
    by_cases hdef : t = "default"
    · simp [TrainerBase.from_params,
        popTrainerType_eq_of_type params sub t hsub ht, hdef]
    · simp [TrainerBase.from_params,
        popTrainerType_eq_of_type params sub t hsub ht, hdef]
  refine ⟨?_, lookupKey_removeKey_self "type" sub,
    fun k hk => lookupKey_removeKey_ne "type" k sub hk, fun k hk => ?_⟩
  · rw [h2, lookupKey_updateKey_self, hsub]
    rfl
  · rw [h2, lookupKey_updateKey_ne "trainer" k (removeKey "type") params hk]

/-- C8 witness: on a concrete configuration the `"type"` key is gone after
`from_params` while the sibling trainer key and the other top-level section
survive unchanged. -/
theorem from_params_pops_type_witness :
    lookupKey "trainer"
      (TrainerBase.from_params
        [("trainer", [("type", "custom"), ("lr", "0.1")]),
         ("model", [("arch", "lstm")])] "s" false).2 =
      some [("lr", "0.1")] ∧
    lookupKey "model"
      (TrainerBase.from_params
        [("trainer", [("type", "custom"), ("lr", "0.1")]),
         ("model", [("arch", "lstm")])] "s" false).2 =
      some [("arch", "lstm")] := by
  have h := from_params_pops_type
    [("trainer", [("type", "custom"), ("lr", "0.1")]),
     ("model", [("arch", "lstm")])] "s" false
    [("type", "custom"), ("lr", "0.1")] "custom" (by decide) (by decide)
  exact ⟨h.1.trans (by decide),
    (h.2.2.2 "model" (by decide)).trans (by decide)⟩

end TrainerBaseSpec
